import Mathlib

/-!
# Shopfloor graph-tool server: shallow embedding and verification

This file embeds the validation and execution core of the WFC_AI_Integration
repository (src/server.py, src/server_v2.py, src/new_server.py,
src/shopfloor_tool.py) into Lean and proves or refutes the specification
claims about it.

Caller-supplied JSON-like values are modelled by `Value`; Python dicts by
association lists with first-occurrence lookup (the repository never builds
dicts with duplicate keys); Python floats by rationals (all float values the
code manipulates here are exact decimals).  Python builtins (`str`, `int`,
`float`, `isinstance`) are modelled on this value universe; the string
parsers cover the decimal core of Python numeric literals (optional sign,
digits, optional fractional part), which is all the repository exercises.
-/

namespace Shopfloor

/-- A caller-supplied JSON-like value, as Python receives it: None, bool,
int, float (exact decimal, modelled as a rational) or string. -/
inductive Value where
  | null
  | bool (b : Bool)
  | int (n : Int)
  | float (q : ℚ)
  | str (s : String)
deriving DecidableEq, Repr

/-- Model of Python `isinstance(value, (int, float))` as used by
`cast_input_value` in server.py and server_v2.py.  In Python `bool` is a
subclass of `int`, so booleans count as numeric. -/
def Value.isNumeric : Value → Bool
  | .bool _ => true
  | .int _ => true
  | .float _ => true
  | _ => false

/-- Model of Python `str()` on the value universe.  For floats the
representation is exact on integral values; the development never relies on
`str` of a non-integral float. -/
def Value.pyStr : Value → String
  | .null => "None"
  | .bool b => if b then "True" else "False"
  | .int n => toString n
  | .float q => if q.den = 1 then toString q.num ++ ".0" else toString q
  | .str s => s

/-- Whitespace stripping as Python int()/float() do before parsing: drop
leading and trailing whitespace characters. -/
def trimChars (cs : List Char) : List Char :=
  ((cs.dropWhile Char.isWhitespace).reverse.dropWhile Char.isWhitespace).reverse

/-- Numeric value of a decimal digit character. -/
def digitVal (c : Char) : Nat := c.toNat - 48

/-- A nonempty run of decimal digits. -/
def isDigits (cs : List Char) : Bool := !cs.isEmpty && cs.all Char.isDigit

/-- The natural number denoted by a digit run. -/
def digitsToNat (cs : List Char) : Nat := cs.foldl (fun a c => 10 * a + digitVal c) 0

/-- Strip one optional leading sign; returns (isNegative, rest). -/
def parseSign : List Char → Bool × List Char
  | '-' :: rest => (true, rest)
  | '+' :: rest => (false, rest)
  | cs => (false, cs)

/-- Model of Python `int(s)` on a string: surrounding whitespace stripped,
optional sign, then a nonempty digit run (the decimal core of the builtin;
underscores and non-ASCII digits are out of the repository's use). -/
def pyIntOfString (s : String) : Option Int :=
  let cs := trimChars s.toList
  let sr := parseSign cs
  if isDigits sr.2 then
    some (if sr.1 then -(digitsToNat sr.2 : Int) else (digitsToNat sr.2 : Int))
  else none

/-- Split a character list at the first dot: (before, some after) when a dot
occurs, (all, none) otherwise. -/
def breakDot : List Char → List Char × Option (List Char)
  | [] => ([], none)
  | '.' :: rest => ([], some rest)
  | c :: rest =>
    let r := breakDot rest
    (c :: r.1, r.2)

/-- Magnitude of a decimal literal: digits, or digits on either side of one
dot with at least one digit in total.  The value `ip.fp` is the exact
rational (ip * 10^|fp| + fp) / 10^|fp|, built with `mkRat` so that it
evaluates by kernel reduction. -/
def parseMag (cs : List Char) : Option ℚ :=
  match breakDot cs with
  | (ip, none) => if isDigits ip then some (mkRat (digitsToNat ip) 1) else none
  | (ip, some fp) =>
    if ip.all Char.isDigit && fp.all Char.isDigit && !(ip.isEmpty && fp.isEmpty) then
      some (mkRat (digitsToNat ip * 10 ^ fp.length + digitsToNat fp) (10 ^ fp.length))
    else none

/-- Model of Python `float(s)` on a string: surrounding whitespace stripped,
optional sign, then a decimal magnitude (the decimal core of the builtin;
exponents, inf and nan are out of the repository's use). -/
def pyFloatOfString (s : String) : Option ℚ :=
  let sr := parseSign (trimChars s.toList)
  (parseMag sr.2).map (fun q => if sr.1 then -q else q)

/-- Model of the Python `int()` constructor on a value; `none` models a
raised ValueError/TypeError.  `int` truncates floats toward zero. -/
def pyInt : Value → Option Int
  | .null => none
  | .bool b => some (if b then 1 else 0)
  | .int n => some n
  | .float q => some (if q < 0 then -Int.floor (-q) else Int.floor q)
  | .str s => pyIntOfString s

/-- Model of the Python `float()` constructor on a value; `none` models a
raised ValueError/TypeError. -/
def pyFloat : Value → Option ℚ
  | .null => none
  | .bool b => some (mkRat (if b then 1 else 0) 1)
  | .int n => some (mkRat n 1)
  | .float q => some q
  | .str s => pyFloatOfString s

/-- One declared input field of an operation contract: its `"type"` string
and its `"required"` flag (`v.get('required', False)`: absent means false). -/
structure FieldSpec where
  type : String
  required : Bool
deriving DecidableEq, Repr

/-- One operation of the contract document: `description`, ordered `inputs`
schema, `outputs` descriptors and the `cypher` query template.  `examples`
are used only by the mock-output generator of server.py (random, outside the
claims) and are omitted. -/
structure Operation where
  description : String
  inputs : List (String × FieldSpec)
  outputs : List (String × String)
  cypher : String
deriving DecidableEq, Repr

/-- A validation failure raised with HTTP status 400: a missing required
field, or a cast failure carrying the field name and declared type. -/
inductive VError where
  | missingRequired (field : String)
  | castError (field : String) (tname : String)
deriving DecidableEq, Repr

/-- Decidable equality for `Except`, so that concrete runs of the validators
can be settled by `decide`. -/
instance {ε α : Type} [DecidableEq ε] [DecidableEq α] : DecidableEq (Except ε α) := fun a b =>
  match a, b with
  | .error e, .error f =>
    match decEq e f with
    | isTrue h => isTrue (congrArg Except.error h)
    | isFalse h => isFalse (fun hh => h (Except.error.inj hh))
  | .error _, .ok _ => isFalse (fun hh => Except.noConfusion hh)
  | .ok _, .error _ => isFalse (fun hh => Except.noConfusion hh)
  | .ok u, .ok v =>
    match decEq u v with
    | isTrue h => isTrue (congrArg Except.ok h)
    | isFalse h => isFalse (fun hh => h (Except.ok.inj hh))

namespace Server

/-- server.py `cast_input_value(value, type_name)`: for `"number"`, numeric
values (bools included) pass through unchanged, otherwise the presence of a
dot in `str(value)` selects `float()` over `int()`; `"string"` applies
`str()`; other type names pass through.  `none` models the raised
ValueError (the CastError). -/
def cast_input_value (value : Value) (type_name : String) : Option Value :=
  if type_name = "number" then
    if value.isNumeric then some value
    else if value.pyStr.toList.contains '.' then (pyFloat value).map Value.float
    else (pyInt value).map Value.int
  else if type_name = "string" then some (.str value.pyStr)
  else some value

/-- The loop of server.py `validate_and_cast_inputs` over the schema items
in declaration order: per key, the missing-required check, then (when the
key is present in `inputs`) the cast.  The first failing key aborts with
its HTTP-400 error. -/
def validateFields (inputs : List (String × Value)) :
    List (String × FieldSpec) → Except VError (List (String × Value))
  | [] => .ok []
  | (key, vs) :: rest =>
    if vs.required && (List.lookup key inputs).isNone then
      .error (.missingRequired key)
    else
      match List.lookup key inputs with
      | none => validateFields inputs rest
      | some v =>
        match cast_input_value v vs.type with
        | none => .error (.castError key vs.type)
        | some cv => (validateFields inputs rest).map (fun t => (key, cv) :: t)

/-- server.py `validate_and_cast_inputs(op_schema, inputs)`: iterates
`op_schema.get("inputs", {})`. -/
def validate_and_cast_inputs (op : Operation) (inputs : List (String × Value)) :
    Except VError (List (String × Value)) :=
  validateFields inputs op.inputs

end Server

namespace ServerV2

/-- server_v2.py `cast_input_value`: textually identical to the server.py
function. -/
def cast_input_value (value : Value) (type_name : String) : Option Value :=
  if type_name = "number" then
    if value.isNumeric then some value
    else if value.pyStr.toList.contains '.' then (pyFloat value).map Value.float
    else (pyInt value).map Value.int
  else if type_name = "string" then some (.str value.pyStr)
  else some value

/-- The loop of server_v2.py `validate_and_cast_inputs`: textually identical
to the server.py loop. -/
def validateFields (inputs : List (String × Value)) :
    List (String × FieldSpec) → Except VError (List (String × Value))
  | [] => .ok []
  | (key, vs) :: rest =>
    if vs.required && (List.lookup key inputs).isNone then
      .error (.missingRequired key)
    else
      match List.lookup key inputs with
      | none => validateFields inputs rest
      | some v =>
        match cast_input_value v vs.type with
        | none => .error (.castError key vs.type)
        | some cv => (validateFields inputs rest).map (fun t => (key, cv) :: t)

/-- server_v2.py `validate_and_cast_inputs(op_schema, inputs)`. -/
def validate_and_cast_inputs (op : Operation) (inputs : List (String × Value)) :
    Except VError (List (String × Value)) :=
  validateFields inputs op.inputs

end ServerV2

namespace NewServer

/-- The loop of new_server.py `validate_and_cast_inputs`: same required
check, but the cast is inlined and `"number"` fields are always cast with
`float()`. -/
def validateFields (inputs : List (String × Value)) :
    List (String × FieldSpec) → Except VError (List (String × Value))
  | [] => .ok []
  | (key, vs) :: rest =>
    if vs.required && (List.lookup key inputs).isNone then
      .error (.missingRequired key)
    else
      match List.lookup key inputs with
      | none => validateFields inputs rest
      | some v =>
        if vs.type = "number" then
          match pyFloat v with
          | none => .error (.castError key vs.type)
          | some q => (validateFields inputs rest).map (fun t => (key, .float q) :: t)
        else if vs.type = "string" then
          (validateFields inputs rest).map (fun t => (key, .str v.pyStr) :: t)
        else
          (validateFields inputs rest).map (fun t => (key, v) :: t)

/-- new_server.py `validate_and_cast_inputs(op_schema, inputs)`. -/
def validate_and_cast_inputs (op : Operation) (inputs : List (String × Value)) :
    Except VError (List (String × Value)) :=
  validateFields inputs op.inputs

end NewServer

/-- The unit whitelist of `ShopfloorGraphTool.call`: `{'mm/s', 'C', 'dB'}`. -/
def allowed_units : List String := ["mm/s", "C", "dB"]

/-- Python `params['unit'] not in allowed_units`, negated: a value passes
the whitelist exactly when it is a string in the allowed set (a non-string
value compares unequal to every allowed string). -/
def unitAllowed : Value → Bool
  | .str s => allowed_units.contains s
  | _ => false

/-- A failure raised by `ShopfloorGraphTool.call` (a Python ValueError):
unknown operation, missing required inputs, or a whitelist violation. -/
inductive CallError where
  | unknownOp (name : String)
  | missingRequired (fields : List String)
  | unitNotAllowed
deriving DecidableEq, Repr

/-- What `session.run(cypher, params)` receives: the query text and the
named-parameter mapping. -/
structure ExecutedQuery where
  cypher : String
  params : List (String × Value)
deriving DecidableEq, Repr

/-- The required field names of an operation that are absent from `params`
(`missing` in shopfloor_tool.py, in schema order). -/
def missingOf (op : Operation) (params : List (String × Value)) : List String :=
  ((op.inputs.filter (fun kv => kv.2.required)).map Prod.fst).filter
    (fun k => (List.lookup k params).isNone)

/-- shopfloor_tool.py `ShopfloorGraphTool.call(op_name, params)`: unknown
operation lookup, the minimal required-presence check, the unit whitelist,
then `session.run(op['cypher'], params)`.  On success it returns exactly
what is handed to the session. -/
def ShopfloorGraphTool.call (operations : List (String × Operation)) (op_name : String)
    (params : List (String × Value)) : Except CallError ExecutedQuery :=
  match List.lookup op_name operations with
  | none => .error (.unknownOp op_name)
  | some op =>
    if !(missingOf op params).isEmpty then
      .error (.missingRequired (missingOf op params))
    else
      match List.lookup "unit" params with
      | some u =>
        if unitAllowed u then .ok { cypher := op.cypher, params := params }
        else .error .unitNotAllowed
      | none => .ok { cypher := op.cypher, params := params }

/-- The transport-level outcome of a `/tools/run` request: 404, 400 with the
validation error, 500 (the front ends wrap any exception escaping
`tool.call` this way), or 200 carrying the validated inputs and, for the
live servers, the query handed to the store (server.py produces mock output
instead, generated with `random.choice` and outside these claims). -/
inductive HttpOutcome where
  | notFound
  | validationError (e : VError)
  | executionError
  | ok (validated : List (String × Value)) (query : Option ExecutedQuery)
deriving DecidableEq, Repr

/-- server.py `run_tool`: contract lookup, validation, then mock output. -/
def Server.run_tool (operations : List (String × Operation)) (operation : String)
    (inputs : List (String × Value)) : HttpOutcome :=
  match List.lookup operation operations with
  | none => .notFound
  | some op =>
    match Server.validate_and_cast_inputs op inputs with
    | .error e => .validationError e
    | .ok validated => .ok validated none

/-- server_v2.py `run_tool`: contract lookup, validation, then
`tool.call` with every raised exception mapped to HTTP 500.  The front end
and the tool load the same contract document, so one store serves both. -/
def ServerV2.run_tool (operations : List (String × Operation)) (operation : String)
    (inputs : List (String × Value)) : HttpOutcome :=
  match List.lookup operation operations with
  | none => .notFound
  | some op =>
    match ServerV2.validate_and_cast_inputs op inputs with
    | .error e => .validationError e
    | .ok validated =>
      match ShopfloorGraphTool.call operations operation validated with
      | .error _ => .executionError
      | .ok q => .ok validated (some q)

/-- new_server.py `run_tool`: same shape as server_v2.py with the
new_server validator (the tool is constructed on the same contract file). -/
def NewServer.run_tool (operations : List (String × Operation)) (operation : String)
    (inputs : List (String × Value)) : HttpOutcome :=
  match List.lookup operation operations with
  | none => .notFound
  | some op =>
    match NewServer.validate_and_cast_inputs op inputs with
    | .error e => .validationError e
    | .ok validated =>
      match ShopfloorGraphTool.call operations operation validated with
      | .error _ => .executionError
      | .ok q => .ok validated (some q)

/-- Python `os.environ.get(key, default)` over an environment modelled as an
association list. -/
def environ_get (env : List (String × String)) (key default : String) : String :=
  (List.lookup key env).getD default

/-- The connection parameters the shopfloor_tool.py CLI (`__main__`) passes
to `ShopfloorGraphTool`: environment values with hardcoded fallbacks. -/
def ShopfloorMain.connection (env : List (String × String)) : String × String × String :=
  (environ_get env "NEO4J_URI" "neo4j+s://c4c021e8.databases.neo4j.io",
   environ_get env "NEO4J_USER" "neo4j",
   environ_get env "NEO4J_PASSWORD" "erqwOAV4kn4cLkktYx1tCv4M-h1piA5ay64o0Gyls48")

/-- The connection parameters server_v2.py resolves at import time:
environment values with hardcoded fallbacks. -/
def ServerV2.connection (env : List (String × String)) : String × String × String :=
  (environ_get env "NEO4J_URI" "neo4j+s://62f9b154.databases.neo4j.io",
   environ_get env "NEO4J_USER" "neo4j",
   environ_get env "NEO4J_PASSWORD" "U32P3onr7idgSWbqklVReZQ8BVRH_BWH3_A5Oj83oq0")

/-- Python truthiness of `os.environ.get(key)`: present and nonempty. -/
def envTruthy (env : List (String × String)) (key : String) : Bool :=
  match List.lookup key env with
  | none => false
  | some s => !s.data.isEmpty

/-- The connection parameters new_server.py resolves at import time: it
raises (here `none`) unless all three environment variables are present and
truthy, and uses them with no fallback. -/
def NewServer.connection (env : List (String × String)) : Option (String × String × String) :=
  if envTruthy env "NEO4J_URI" && envTruthy env "NEO4J_USER" &&
      envTruthy env "NEO4J_PASSWORD" then
    some ((List.lookup "NEO4J_URI" env).getD "", (List.lookup "NEO4J_USER" env).getD "",
      (List.lookup "NEO4J_PASSWORD" env).getD "")
  else none

/-! ## Concrete fixtures

Small concrete contracts in the shape of shopfloor_tool_contract.json,
used to instantiate the claims. -/

/-- An operation with one required string field `unit`. -/
def unitOp : Operation :=
  { description := "", inputs := [("unit", ⟨"string", true⟩)], outputs := [],
    cypher := "MATCH (m) RETURN m" }

/-- A one-operation contract store. -/
def ops1 : List (String × Operation) := [("op1", unitOp)]

/-- An operation with one required numeric field `threshold`. -/
def thresholdOp : Operation :=
  { description := "", inputs := [("threshold", ⟨"number", true⟩)], outputs := [],
    cypher := "Q" }

/-- An operation whose schema declares an optional numeric field `a` before
a required numeric field `b`. -/
def abOp : Operation :=
  { description := "", inputs := [("a", ⟨"number", false⟩), ("b", ⟨"number", true⟩)],
    outputs := [], cypher := "Q" }

/-! ## Helper lemmas -/

theorem except_map_ok {ε α β : Type} {f : α → β} {x : Except ε α} {b : β}
    (h : x.map f = .ok b) : ∃ a, x = .ok a ∧ b = f a := by
  cases x with
  | error e => simp [Except.map] at h
  | ok a => exact ⟨a, rfl, by simpa [Except.map] using h.symm⟩

/-- On success, `ShopfloorGraphTool.call` hands the session exactly the
operation's template and the unmodified `params` mapping. -/
theorem call_ok_shape {ops : List (String × Operation)} {name : String}
    {params : List (String × Value)} {q : ExecutedQuery}
    (h : ShopfloorGraphTool.call ops name params = .ok q) :
    ∃ op, List.lookup name ops = some op ∧ q = ⟨op.cypher, params⟩ := by
  unfold ShopfloorGraphTool.call at h
  cases hop : List.lookup name ops with
  | none => rw [hop] at h; cases h
  | some op =>
    rw [hop] at h
    simp only at h
    refine ⟨op, rfl, ?_⟩
    split at h
    · cases h
    · split at h
      · split at h
        · exact (Except.ok.inj h).symm
        · cases h
      · exact (Except.ok.inj h).symm

/-- Every key of a successful validation result is declared in the schema:
the loop only ever inserts schema keys into `validated`. -/
theorem validateFields_ok_keys {inputs : List (String × Value)} :
    ∀ {schema : List (String × FieldSpec)} {validated : List (String × Value)},
    Server.validateFields inputs schema = .ok validated →
    ∀ k v, (k, v) ∈ validated → ∃ spec, (k, spec) ∈ schema := by
  intro schema
  induction schema with
  | nil =>
    intro validated h k v hv
    injection h with h
    rw [← h] at hv
    cases hv
  | cons kv rest ih =>
    obtain ⟨key, vs⟩ := kv
    intro validated h k v hv
    simp only [Server.validateFields] at h
    split at h
    · cases h
    · split at h
      · obtain ⟨spec, hs⟩ := ih h k v hv
        exact ⟨spec, List.mem_cons_of_mem _ hs⟩
      · split at h
        · cases h
        · obtain ⟨t, ht, hval⟩ := except_map_ok h
          subst hval
          rcases List.mem_cons.mp hv with h1 | h2
          · have hk : k = key := congrArg Prod.fst h1
            subst hk
            exact ⟨vs, List.mem_cons_self _ _⟩
          · obtain ⟨spec, hs⟩ := ih ht k v h2
            exact ⟨spec, List.mem_cons_of_mem _ hs⟩

/-- A raw-input key that no schema field declares is invisible to the
validation loop: adding it to the raw inputs changes nothing. -/
theorem validateFields_ignore_unknown {k : String} {v : Value}
    {inputs : List (String × Value)} :
    ∀ {schema : List (String × FieldSpec)}, k ∉ schema.map Prod.fst →
    Server.validateFields ((k, v) :: inputs) schema = Server.validateFields inputs schema := by
  intro schema
  induction schema with
  | nil => intro _; rfl
  | cons kv rest ih =>
    obtain ⟨key, vs⟩ := kv
    intro hk
    have hne : key ≠ k := by
      intro he
      exact hk (by rw [← he]; exact List.mem_cons_self _ _)
    have hlk : List.lookup key ((k, v) :: inputs) = List.lookup key inputs := by
      rw [List.lookup_cons, beq_false_of_ne hne]
    have hrest : k ∉ rest.map Prod.fst := fun hm => hk (List.mem_cons_of_mem _ hm)
    simp only [Server.validateFields, hlk, ih hrest]

/-- If some required schema field is absent from the raw inputs, the loop
fails (with the first schema-order error, whichever it is). -/
theorem validateFields_error_of_missing {inputs : List (String × Value)} :
    ∀ {schema : List (String × FieldSpec)} {k : String} {spec : FieldSpec},
    (k, spec) ∈ schema → spec.required = true → List.lookup k inputs = none →
    ∃ e, Server.validateFields inputs schema = .error e := by
  intro schema
  induction schema with
  | nil => intro k spec hmem; cases hmem
  | cons kv rest ih =>
    obtain ⟨key, vs⟩ := kv
    intro k spec hmem hreq hmiss
    simp only [Server.validateFields]
    split
    · exact ⟨_, rfl⟩
    · rcases List.mem_cons.mp hmem with h1 | h2
      · have hk : k = key := congrArg Prod.fst h1
        have hs : spec = vs := congrArg Prod.snd h1
        subst hk; subst hs
        rename_i hcond
        rw [hreq, hmiss] at hcond
        simp at hcond
      · split
        · obtain ⟨e, he⟩ := ih h2 hreq hmiss
          exact ⟨e, he⟩
        · split
          · exact ⟨_, rfl⟩
          · obtain ⟨e, he⟩ := ih h2 hreq hmiss
            rw [he]
            exact ⟨e, rfl⟩

/-- When every present schema field casts successfully, a missing required
field is reported as the missing-required error for a required-and-missing
field. -/
theorem validateFields_missing_of_casts_ok {inputs : List (String × Value)} :
    ∀ {schema : List (String × FieldSpec)} {k : String} {spec : FieldSpec},
    (k, spec) ∈ schema → spec.required = true → List.lookup k inputs = none →
    (∀ k' spec' v, (k', spec') ∈ schema → List.lookup k' inputs = some v →
      (Server.cast_input_value v spec'.type).isSome = true) →
    ∃ k', Server.validateFields inputs schema = .error (.missingRequired k') ∧
      (∃ spec', (k', spec') ∈ schema ∧ spec'.required = true ∧
        List.lookup k' inputs = none) := by
  intro schema
  induction schema with
  | nil => intro k spec hmem; cases hmem
  | cons kv rest ih =>
    obtain ⟨key, vs⟩ := kv
    intro k spec hmem hreq hmiss hcasts
    simp only [Server.validateFields]
    split
    · rename_i hcond
      rw [Bool.and_eq_true] at hcond
      refine ⟨key, rfl, vs, List.mem_cons_self _ _, hcond.1, ?_⟩
      rw [Option.isNone_iff_eq_none] at hcond
      exact hcond.2
    · have hmemr : (k, spec) ∈ rest := by
        rcases List.mem_cons.mp hmem with h1 | h2
        · exfalso
          have hk : k = key := congrArg Prod.fst h1
          have hs : spec = vs := congrArg Prod.snd h1
          subst hk; subst hs
          rename_i hcond
          rw [hreq, hmiss] at hcond
          simp at hcond
        · exact h2
      have hcasts' : ∀ k' spec' v, (k', spec') ∈ rest → List.lookup k' inputs = some v →
          (Server.cast_input_value v spec'.type).isSome = true :=
        fun k' spec' v hm hl => hcasts k' spec' v (List.mem_cons_of_mem _ hm) hl
      obtain ⟨k', he, hwit⟩ := ih hmemr hreq hmiss hcasts'
      split
      · exact ⟨k', he, hwit.imp (fun spec' hw => ⟨List.mem_cons_of_mem _ hw.1, hw.2⟩)⟩
      · split
        · rename_i disc1 cv hlkeq disc2 hcast
          exfalso
          have := hcasts key vs cv (List.mem_cons_self _ _) hlkeq
          rw [hcast] at this
          cases this
        · rw [he]
          exact ⟨k', rfl, hwit.imp (fun spec' hw => ⟨List.mem_cons_of_mem _ hw.1, hw.2⟩)⟩

/-- server.py and server_v2.py define `cast_input_value` by the same text,
so the two functions are definitionally equal. -/
theorem cast_input_value_eq (v : Value) (t : String) :
    Server.cast_input_value v t = ServerV2.cast_input_value v t := rfl

/-- server.py and server_v2.py define the validation loop by the same text,
so the two loops agree on every schema and raw-input mapping. -/
theorem validateFields_eq (inputs : List (String × Value)) :
    ∀ schema, Server.validateFields inputs schema = ServerV2.validateFields inputs schema := by
  intro schema
  induction schema with
  | nil => rfl
  | cons kv rest ih =>
    obtain ⟨key, vs⟩ := kv
    simp only [Server.validateFields, ServerV2.validateFields, ih, cast_input_value_eq]

/-! ## Claims -/

/-- C1 (counterexample): with the operation store `ops1` declaring `op1`
with a required string field `unit`, the raw input `{"unit": "psi"}` passes
HTTP-layer validation (unit is a string field; no whitelist there) and the
whitelist violation is then raised inside `tool.call`, which both live front
ends wrap into the HTTP-500 server-error outcome — the ExecutionError
surface, not a ValidationError.  This refutes the claim that a whitelist
violation never surfaces as an ExecutionError. -/
theorem C1_counterexample :
    ServerV2.run_tool ops1 "op1" [("unit", Value.str "psi")] = .executionError ∧
    NewServer.run_tool ops1 "op1" [("unit", Value.str "psi")] = .executionError := by
  decide

/-- C1 (amended): within `ShopfloorGraphTool.call`, whenever the operation
exists, no required field is missing, and the params carry a `unit` value
outside the allowed set {mm/s, C, dB}, the call fails with the whitelist
ValueError before any query is handed to the session, and `"mm/s"` passes
the whitelist; but the server_v2 front end surfaces any such `tool.call`
failure as the HTTP-500 server-error (ExecutionError) outcome rather than a
400 ValidationError. -/
theorem C1_amended (ops : List (String × Operation)) (name : String) (op : Operation)
    (params : List (String × Value)) (u : Value)
    (hop : List.lookup name ops = some op)
    (hu : List.lookup "unit" params = some u)
    (hbad : unitAllowed u = false)
    (hreq : missingOf op params = []) :
    ShopfloorGraphTool.call ops name params = .error .unitNotAllowed ∧
    unitAllowed (Value.str "mm/s") = true ∧
    (∀ inputs validated e, ServerV2.validate_and_cast_inputs op inputs = .ok validated →
      ShopfloorGraphTool.call ops name validated = .error e →
      ServerV2.run_tool ops name inputs = .executionError) := by
  refine ⟨?_, by decide, ?_⟩
  · simp [ShopfloorGraphTool.call, hop, hreq, hu, hbad]
  · intro inputs validated e hval hcall
    simp [ServerV2.run_tool, hop, hval, hcall]

/-- C1 (witness): the amended statement instantiated at the concrete store
`ops1` and the params `{"unit": "psi"}`. -/
theorem C1_witness :
    ShopfloorGraphTool.call ops1 "op1" [("unit", Value.str "psi")] = .error .unitNotAllowed ∧
    unitAllowed (Value.str "mm/s") = true ∧
    (∀ inputs validated e,
      ServerV2.validate_and_cast_inputs unitOp inputs = .ok validated →
      ShopfloorGraphTool.call ops1 "op1" validated = .error e →
      ServerV2.run_tool ops1 "op1" inputs = .executionError) :=
  C1_amended ops1 "op1" unitOp [("unit", Value.str "psi")] (Value.str "psi")
    (by decide) (by decide) (by decide) (by decide)

/-- C2 (counterexample): starting a process with an empty environment — no
externally supplied credential at all — server_v2.py and the
shopfloor_tool.py CLI still connect with concrete hardcoded passwords, so
the connection parameters are not exactly those supplied externally; only
new_server.py refuses to start. -/
theorem C2_counterexample :
    List.lookup "NEO4J_PASSWORD" ([] : List (String × String)) = none ∧
    (ServerV2.connection []).2.2 = "U32P3onr7idgSWbqklVReZQ8BVRH_BWH3_A5Oj83oq0" ∧
    (ShopfloorMain.connection []).2.2 = "erqwOAV4kn4cLkktYx1tCv4M-h1piA5ay64o0Gyls48" ∧
    NewServer.connection [] = none := by decide

/-- C2 (amended): when the environment does supply NEO4J_PASSWORD, every
entry point uses exactly that external value; new_server.py aborts startup
when the variable is absent and, when it starts, its credential is the
external one.  The uncorrected part of the original claim fails because
server_v2.py and the shopfloor_tool CLI fall back to hardcoded credentials
when the variable is unset. -/
theorem C2_amended (env : List (String × String)) (p : String)
    (hp : List.lookup "NEO4J_PASSWORD" env = some p) :
    (ServerV2.connection env).2.2 = p ∧
    (ShopfloorMain.connection env).2.2 = p ∧
    (∀ c, NewServer.connection env = some c → c.2.2 = p) ∧
    (∀ env' : List (String × String), List.lookup "NEO4J_PASSWORD" env' = none →
      NewServer.connection env' = none) := by
  refine ⟨?_, ?_, ?_, ?_⟩
  · simp [ServerV2.connection, environ_get, hp]
  · simp [ShopfloorMain.connection, environ_get, hp]
  · intro c hc
    unfold NewServer.connection at hc
    split at hc
    · injection hc with hc
      rw [← hc]
      simp [hp]
    · cases hc
  · intro env' h
    simp [NewServer.connection, envTruthy, h]

/-- C2 (witness): the amended statement instantiated at a one-variable
environment supplying the password "s3". -/
theorem C2_witness :
    (ServerV2.connection [("NEO4J_PASSWORD", "s3")]).2.2 = "s3" ∧
    (ShopfloorMain.connection [("NEO4J_PASSWORD", "s3")]).2.2 = "s3" ∧
    (∀ c, NewServer.connection [("NEO4J_PASSWORD", "s3")] = some c → c.2.2 = "s3") ∧
    (∀ env' : List (String × String), List.lookup "NEO4J_PASSWORD" env' = none →
      NewServer.connection env' = none) :=
  C2_amended [("NEO4J_PASSWORD", "s3")] "s3" (by decide)

/-- C3 (confirmed): on any two successful calls of the same operation, the
query text handed to the session equals the contract's template unchanged —
it does not depend on the validated inputs, which are passed separately as
the named-parameter mapping, never interpolated into the text. -/
theorem C3_parameterized_binding (ops : List (String × Operation)) (name : String)
    (op : Operation) (p1 p2 : List (String × Value)) (q1 q2 : ExecutedQuery)
    (hop : List.lookup name ops = some op)
    (h1 : ShopfloorGraphTool.call ops name p1 = .ok q1)
    (h2 : ShopfloorGraphTool.call ops name p2 = .ok q2) :
    q1.cypher = op.cypher ∧ q2.cypher = op.cypher ∧ q1.cypher = q2.cypher ∧
    q1.params = p1 ∧ q2.params = p2 := by
  obtain ⟨o1, ho1, hq1⟩ := call_ok_shape h1
  obtain ⟨o2, ho2, hq2⟩ := call_ok_shape h2
  rw [hop] at ho1 ho2
  injection ho1 with ho1
  injection ho2 with ho2
  subst ho1; subst ho2; subst hq1; subst hq2
  exact ⟨rfl, rfl, rfl, rfl, rfl⟩

/-- C3 (witness): two concrete successful calls of `op1` with different
validated inputs receive the same, unchanged template text. -/
theorem C3_witness :
    (ExecutedQuery.mk "MATCH (m) RETURN m" [("unit", Value.str "mm/s")]).cypher =
      unitOp.cypher ∧
    (ExecutedQuery.mk "MATCH (m) RETURN m" [("unit", Value.str "C")]).cypher =
      unitOp.cypher ∧
    (ExecutedQuery.mk "MATCH (m) RETURN m" [("unit", Value.str "mm/s")]).cypher =
      (ExecutedQuery.mk "MATCH (m) RETURN m" [("unit", Value.str "C")]).cypher ∧
    (ExecutedQuery.mk "MATCH (m) RETURN m" [("unit", Value.str "mm/s")]).params =
      [("unit", Value.str "mm/s")] ∧
    (ExecutedQuery.mk "MATCH (m) RETURN m" [("unit", Value.str "C")]).params =
      [("unit", Value.str "C")] :=
  C3_parameterized_binding ops1 "op1" unitOp
    [("unit", Value.str "mm/s")] [("unit", Value.str "C")]
    ⟨"MATCH (m) RETURN m", [("unit", Value.str "mm/s")]⟩
    ⟨"MATCH (m) RETURN m", [("unit", Value.str "C")]⟩
    (by decide) (by decide) (by decide)

/-- C4 (counterexample): in new_server.py a number-typed field is always
cast with `float()`, so casting the textual "7" yields the float 7.0, not
the integer 7 — refuting the claim for the new_server.py validator it
cites. -/
theorem C4_counterexample :
    NewServer.validate_and_cast_inputs thresholdOp [("threshold", Value.str "7")] =
      .ok [("threshold", Value.float 7)] ∧
    Value.float 7 ≠ Value.int 7 := by decide

/-- C4 (amended): in server.py and server_v2.py the claim holds exactly:
already-numeric values pass through unchanged, "7.5" parses as the float
7.5, "7" as the integer 7, and "abc" fails with CastError.  In
new_server.py every number field is cast with `float()`: integer inputs
become equal-valued floats (no truncation), "7" yields the float 7.0,
"7.5" the float 7.5, and "abc" still fails with CastError. -/
theorem C4_amended :
    (∀ v : Value, v.isNumeric = true →
      Server.cast_input_value v "number" = some v ∧
      ServerV2.cast_input_value v "number" = some v) ∧
    Server.cast_input_value (.str "7.5") "number" = some (.float (mkRat 15 2)) ∧
    Server.cast_input_value (.str "7") "number" = some (.int 7) ∧
    Server.cast_input_value (.str "abc") "number" = none ∧
    ServerV2.cast_input_value (.str "7.5") "number" = some (.float (mkRat 15 2)) ∧
    ServerV2.cast_input_value (.str "7") "number" = some (.int 7) ∧
    ServerV2.cast_input_value (.str "abc") "number" = none ∧
    (∀ n : Int, NewServer.validate_and_cast_inputs thresholdOp [("threshold", Value.int n)] =
      .ok [("threshold", Value.float (mkRat n 1))]) ∧
    NewServer.validate_and_cast_inputs thresholdOp [("threshold", Value.str "7.5")] =
      .ok [("threshold", Value.float (mkRat 15 2))] ∧
    NewServer.validate_and_cast_inputs thresholdOp [("threshold", Value.str "abc")] =
      .error (.castError "threshold" "number") := by
  refine ⟨?_, by decide, by decide, by decide, by decide, by decide, by decide, ?_, by decide,
    by decide⟩
  · intro v hv
    cases v with
    | null => exact Bool.noConfusion hv
    | str s => exact Bool.noConfusion hv
    | bool b => exact ⟨rfl, rfl⟩
    | int n => exact ⟨rfl, rfl⟩
    | float q => exact ⟨rfl, rfl⟩
  · intro n
    rfl

/-- C4 (witness): the pass-through clause of the amended statement applied
at the concrete numeric value 3, and the float-conversion clause of
new_server.py applied at the integer 3. -/
theorem C4_witness :
    (Server.cast_input_value (.int 3) "number" = some (.int 3) ∧
      ServerV2.cast_input_value (.int 3) "number" = some (.int 3)) ∧
    NewServer.validate_and_cast_inputs thresholdOp [("threshold", Value.int 3)] =
      .ok [("threshold", Value.float (mkRat 3 1))] :=
  ⟨C4_amended.1 (.int 3) rfl, C4_amended.2.2.2.2.2.2.2.1 3⟩

/-- C5 (counterexample): on the schema declaring a required number field
`threshold` and the raw input `{"threshold": "7"}`, server.py and
server_v2.py validate to the integer 7 while new_server.py validates to the
float 7.0 — so the three validators are not input-for-input identical,
refuting the interchangeability claim. -/
theorem C5_counterexample :
    Server.validate_and_cast_inputs thresholdOp [("threshold", Value.str "7")] =
      .ok [("threshold", Value.int 7)] ∧
    ServerV2.validate_and_cast_inputs thresholdOp [("threshold", Value.str "7")] =
      .ok [("threshold", Value.int 7)] ∧
    NewServer.validate_and_cast_inputs thresholdOp [("threshold", Value.str "7")] =
      .ok [("threshold", Value.float 7)] ∧
    NewServer.validate_and_cast_inputs thresholdOp [("threshold", Value.str "7")] ≠
      Server.validate_and_cast_inputs thresholdOp [("threshold", Value.str "7")] := by
  decide

/-- C5 (amended): server.py and server_v2.py are interchangeable — their
validators agree (same validated mapping, same failures) on every operation
schema and every raw-input mapping; new_server.py is not input-for-input
identical to them, because it casts number fields with `float()`. -/
theorem C5_amended :
    (∀ (op : Operation) (inputs : List (String × Value)),
      Server.validate_and_cast_inputs op inputs = ServerV2.validate_and_cast_inputs op inputs) ∧
    (∃ (op : Operation) (inputs : List (String × Value)),
      NewServer.validate_and_cast_inputs op inputs ≠
        Server.validate_and_cast_inputs op inputs) := by
  constructor
  · intro op inputs
    exact validateFields_eq inputs op.inputs
  · exact ⟨thresholdOp, [("threshold", Value.str "7")], by decide⟩

/-- C5 (witness): the agreement clause of the amended statement applied at
a concrete schema and raw input. -/
theorem C5_witness :
    Server.validate_and_cast_inputs thresholdOp [("threshold", Value.str "5")] =
      ServerV2.validate_and_cast_inputs thresholdOp [("threshold", Value.str "5")] :=
  C5_amended.1 thresholdOp [("threshold", Value.str "5")]

/-- C6 (counterexample): the schema of `abOp` declares the optional number
field `a` before the required number field `b`; on the raw input
`{"a": "abc"}` the field `b` is required and missing, yet validation
reports the cast failure of `a`, because required checks and casts are
interleaved in schema order rather than phased — refuting the claim that
the missing-required error is always the one reported. -/
theorem C6_counterexample :
    Server.validate_and_cast_inputs abOp [("a", Value.str "abc")] =
      .error (.castError "a" "number") ∧
    VError.castError "a" "number" ≠ .missingRequired "b" ∧
    ("b", (⟨"number", true⟩ : FieldSpec)) ∈ abOp.inputs ∧
    List.lookup "b" [("a", Value.str "abc")] = none := by decide

/-- C6 (amended): the loop processes schema fields in declaration order,
checking missing-required and then the cast per field.  A raw input missing
a required field therefore always fails with some ValidationError; and when
every present schema field casts successfully, the reported error is the
missing-required error naming a required-and-missing field. -/
theorem C6_amended (op : Operation) (inputs : List (String × Value))
    (k : String) (spec : FieldSpec)
    (hmem : (k, spec) ∈ op.inputs) (hreq : spec.required = true)
    (hmiss : List.lookup k inputs = none) :
    (∃ e, Server.validate_and_cast_inputs op inputs = .error e) ∧
    ((∀ k' spec' v, (k', spec') ∈ op.inputs → List.lookup k' inputs = some v →
        (Server.cast_input_value v spec'.type).isSome = true) →
      ∃ k', Server.validate_and_cast_inputs op inputs = .error (.missingRequired k') ∧
        ∃ spec', (k', spec') ∈ op.inputs ∧ spec'.required = true ∧
          List.lookup k' inputs = none) :=
  ⟨validateFields_error_of_missing hmem hreq hmiss,
   fun hc => validateFields_missing_of_casts_ok hmem hreq hmiss hc⟩

/-- C6 (witness): the amended statement instantiated at `abOp` with empty
raw inputs, where the missing required field is `b`. -/
theorem C6_witness :
    (∃ e, Server.validate_and_cast_inputs abOp [] = .error e) ∧
    ((∀ k' spec' v, (k', spec') ∈ abOp.inputs →
        List.lookup k' ([] : List (String × Value)) = some v →
        (Server.cast_input_value v spec'.type).isSome = true) →
      ∃ k', Server.validate_and_cast_inputs abOp [] = .error (.missingRequired k') ∧
        ∃ spec', (k', spec') ∈ abOp.inputs ∧ spec'.required = true ∧
          List.lookup k' ([] : List (String × Value)) = none) :=
  C6_amended abOp [] "b" ⟨"number", true⟩ (by decide) rfl rfl

/-- C7 (confirmed): raw-input keys not declared in the operation's schema
are silently ignored — every key of a successful validation result is a
schema key, adding an undeclared key to the raw inputs changes the result
in no way, and the concrete example validates `{"threshold": 7.5,
"extra": "x"}` to a mapping containing `threshold` only. -/
theorem C7_unknown_keys_dropped :
    (∀ (op : Operation) (inputs validated : List (String × Value)),
      Server.validate_and_cast_inputs op inputs = .ok validated →
      ∀ k v, (k, v) ∈ validated → ∃ spec, (k, spec) ∈ op.inputs) ∧
    (∀ (op : Operation) (inputs : List (String × Value)) (k : String) (v : Value),
      k ∉ op.inputs.map Prod.fst →
      Server.validate_and_cast_inputs op ((k, v) :: inputs) =
        Server.validate_and_cast_inputs op inputs) ∧
    Server.validate_and_cast_inputs thresholdOp
      [("threshold", Value.float (mkRat 15 2)), ("extra", Value.str "x")] =
      .ok [("threshold", Value.float (mkRat 15 2))] :=
  ⟨fun _ _ _ h => validateFields_ok_keys h,
   fun _ _ _ _ hk => validateFields_ignore_unknown hk,
   by decide⟩

/-- C7 (witness): the schema-key clause applied to the concrete example
run, contributing the key `threshold`. -/
theorem C7_witness : ∃ spec, ("threshold", spec) ∈ thresholdOp.inputs :=
  C7_unknown_keys_dropped.1 thresholdOp
    [("threshold", Value.float (mkRat 15 2)), ("extra", Value.str "x")]
    [("threshold", Value.float (mkRat 15 2))] (by decide) "threshold"
    (Value.float (mkRat 15 2)) (by decide)

/-- C8 (confirmed): an operation name absent from the contract store yields
the distinguishable NotFound outcome in all three front ends — never a
ValidationError or ExecutionError outcome, with no validation performed and
no query produced — and `tool.call` raises its distinguishable unknown-op
error before touching required checks, the whitelist, or the session. -/
theorem C8_unknown_operation_not_found (ops : List (String × Operation)) (name : String)
    (inputs params : List (String × Value))
    (hn : List.lookup name ops = none) :
    Server.run_tool ops name inputs = .notFound ∧
    ServerV2.run_tool ops name inputs = .notFound ∧
    NewServer.run_tool ops name inputs = .notFound ∧
    ShopfloorGraphTool.call ops name params = .error (.unknownOp name) := by
  refine ⟨?_, ?_, ?_, ?_⟩ <;>
    simp [Server.run_tool, ServerV2.run_tool, NewServer.run_tool,
      ShopfloorGraphTool.call, hn]

/-- C8 (witness): the statement instantiated at the store `ops1` and the
unknown name "noSuchOp". -/
theorem C8_witness :
    Server.run_tool ops1 "noSuchOp" [] = .notFound ∧
    ServerV2.run_tool ops1 "noSuchOp" [] = .notFound ∧
    NewServer.run_tool ops1 "noSuchOp" [] = .notFound ∧
    ShopfloorGraphTool.call ops1 "noSuchOp" [] = .error (.unknownOp "noSuchOp") :=
  C8_unknown_operation_not_found ops1 "noSuchOp" [] [] (by decide)

/-- C9 (confirmed): for a number-typed field, a boolean raw value passes
the `isinstance(value, (int, float))` test (bool subclasses int in Python)
and is returned unchanged as a boolean by the server.py and server_v2.py
casts — neither rejected nor converted. -/
theorem C9_bool_passthrough (b : Bool) :
    Server.cast_input_value (.bool b) "number" = some (.bool b) ∧
    ServerV2.cast_input_value (.bool b) "number" = some (.bool b) := by
  cases b <;> exact ⟨rfl, rfl⟩

/-- C9 (witness): the statement applied at the concrete boolean true. -/
theorem C9_witness :
    Server.cast_input_value (.bool true) "number" = some (.bool true) ∧
    ServerV2.cast_input_value (.bool true) "number" = some (.bool true) :=
  C9_bool_passthrough true

/-- C10 (confirmed): `ShopfloorGraphTool.call` neither casts nor filters
its params — every successful call binds exactly the given mapping into
the query, and the concrete run shows an undeclared key (`extra`) flowing
through to the session, so undeclared keys are dropped only when an
HTTP-layer validator runs first. -/
theorem C10_params_bound_unchanged :
    (∀ (ops : List (String × Operation)) (name : String)
      (params : List (String × Value)) (q : ExecutedQuery),
      ShopfloorGraphTool.call ops name params = .ok q → q.params = params) ∧
    ShopfloorGraphTool.call ops1 "op1"
      [("unit", Value.str "mm/s"), ("extra", Value.str "x")] =
      .ok ⟨"MATCH (m) RETURN m", [("unit", Value.str "mm/s"), ("extra", Value.str "x")]⟩ :=
  ⟨fun _ _ _ _ h => by
    obtain ⟨op, _, hq⟩ := call_ok_shape h
    rw [hq],
   by decide⟩

/-- C10 (witness): the pass-through clause applied to the concrete call
whose params carry the undeclared key `extra`. -/
theorem C10_witness :
    (ExecutedQuery.mk "MATCH (m) RETURN m"
      [("unit", Value.str "mm/s"), ("extra", Value.str "x")]).params =
      [("unit", Value.str "mm/s"), ("extra", Value.str "x")] :=
  C10_params_bound_unchanged.1 ops1 "op1"
    [("unit", Value.str "mm/s"), ("extra", Value.str "x")]
    ⟨"MATCH (m) RETURN m", [("unit", Value.str "mm/s"), ("extra", Value.str "x")]⟩
    (by decide)

end Shopfloor
